import Mathlib

/-!
Verification development for the trmnl-plugin-provider runtime.

The definitions below are a shallow embedding of the TypeScript sources:
device geometry fixing (identifyDevice), screen publication
(refreshScreenForPlugin), the per-plugin failure isolation loop
(refreshAllPlugins), plugin discovery (discoverPlugins), the polling
coordinator iteration (startDeviceSynchronizedLoop in pluginloop.ts), the
slow-poll recovery procedure (waitForDeviceRefresh in env.ts) together with
its SIGINT interaction, and the render fallback path (renderToBase64 and
drawError in basePlugin.ts).  Machine integers of the source are modelled
as Nat / Int (timestamps are millisecond epoch values as in Date.now), and
fallible code returns Except.
-/

namespace Spec2Proof

/-! ## Device geometry (identifyDevice, src/src/pluginloop.ts lines 43-53)

The source computes, from the model record returned by the Terminus API:
isRotated = (model.rotation + 90) % 180 === 0, and swaps width/height when
isRotated.  JS remainder and Lean Int.emod agree on equality with zero. -/

def isRotated (rotation : Int) : Bool :=
  (rotation + 90) % 180 == 0

def fixDims (rotation : Int) (modelWidth modelHeight : Nat) : Nat × Nat :=
  if isRotated rotation then (modelHeight, modelWidth) else (modelWidth, modelHeight)

/-! ## Screens and publication (refreshScreenForPlugin, pluginloop.ts lines 124-156)

The Terminus screen store is a list of records with a server id and a name.
removeScreen deletes by id, addScreen appends the newly created screen.
jsStartsWith models String.prototype.startsWith as a character prefix test. -/

structure Screen where
  id : Nat
  name : String
deriving Repr, DecidableEq

abbrev Store := List Screen

def jsStartsWith (s pre : String) : Bool :=
  pre.data.isPrefixOf s.data

def removeScreen (store : Store) (i : Nat) : Store :=
  store.filter (fun sc => sc.id != i)

def addScreen (store : Store) (i : Nat) (nm : String) : Store :=
  store ++ [⟨i, nm⟩]

/-- The stable screen-name stem: pluginName + under-score + device friendly id. -/
def stableName (pluginName friendlyId : String) : String :=
  pluginName ++ "_" ++ friendlyId

def matchingScreens (store : Store) (pre : String) : List Screen :=
  store.filter (fun sc => jsStartsWith sc.name pre)

def countMatching (store : Store) (pre : String) : Nat :=
  (matchingScreens store pre).length

/-- The deletion loop of refreshScreenForPlugin: for each screen of the
fetched snapshot whose name starts with the stable stem, remove it by id. -/
def deleteMatching (store : Store) (snapshot : List Screen) : Store :=
  snapshot.foldl (fun st sc => removeScreen st sc.id) store

/-- The screen-management phase of refreshScreenForPlugin: fetch the
snapshot, delete every screen whose name starts with the stable stem, then
add the new screen named stem + under-score + a time-derived suffix. -/
def refreshScreenForPlugin (store : Store) (pluginName friendlyId sfx : String)
    (newId : Nat) : Store :=
  let pre := stableName pluginName friendlyId
  let after := deleteMatching store (matchingScreens store pre)
  addScreen after newId (pre ++ "_" ++ sfx)

/-- Every intermediate store observed while the deletion loop runs,
starting state included. -/
def deleteTraceStores : Store → List Screen → List Store
  | store, [] => [store]
  | store, sc :: rest => store :: deleteTraceStores (removeScreen store sc.id) rest

/-- All intermediate stores of one publish operation, final (post-creation)
store included. -/
def publishTrace (store : Store) (pluginName friendlyId sfx : String)
    (newId : Nat) : List Store :=
  let pre := stableName pluginName friendlyId
  deleteTraceStores store (matchingScreens store pre) ++
    [refreshScreenForPlugin store pluginName friendlyId sfx newId]

/-- The store left behind when Terminus.addScreen fails after the deletion
loop has completed: all stem-matching screens are gone and nothing was
created. -/
def publishStoreIfAddFails (store : Store) (pluginName friendlyId : String) : Store :=
  deleteMatching store (matchingScreens store (stableName pluginName friendlyId))

/-! ## Per-cycle failure isolation (refreshAllPlugins, pluginloop.ts lines 174-184)

Each plugin of the cycle is run inside try/catch: a failure is logged with
the plugin name and the loop continues with the next plugin.  A plugin run
is abstracted by its name and the outcome of its render+publish. -/

structure PluginRun where
  pluginName : String
  outcome : Except String Unit
deriving Repr

/-- Returns the names attempted, in order, and the logged failures. -/
def refreshAllPlugins : List PluginRun → List String × List (String × String)
  | [] => ([], [])
  | p :: rest =>
    let r := refreshAllPlugins rest
    match p.outcome with
    | .ok _ => (p.pluginName :: r.1, r.2)
    | .error e => (p.pluginName :: r.1, (p.pluginName, e) :: r.2)

/-! ## Plugin discovery (discoverPlugins, pluginloop.ts lines 55-122)

A directory entry of the plugins root is abstracted by the observations the
source makes of it: the entry name, whether it is a directory, whether
config.json and index.ts exist, the JSON parse outcome of config.json, and
whether the entry point default-exports a function.  The parsed config is
abstracted by key presence of enabled and config, and whether the enabled
value is exactly false (the source tests pluginConfig.enabled === false). -/

structure PluginConfigJson where
  hasEnabled : Bool
  enabledIsFalse : Bool
  hasConfigKey : Bool
deriving Repr, DecidableEq

structure DirEntry where
  name : String
  isDirectory : Bool
  configFileExists : Bool
  configParse : Option PluginConfigJson
  indexFileExists : Bool
  defaultExportIsFunction : Bool
deriving Repr, DecidableEq

/-- Processing of one directory entry, in source order: skip the example
template and non-directories, then require config.json, then index.ts, then
valid JSON, then the enabled key; skip (without error) when enabled is
exactly false; then require the config key and a function default export.
Returns the loaded plugin name, or none for a skip. -/
def discoverStep (e : DirEntry) : Except String (Option String) :=
  if e.name = "example" then .ok none
  else if !e.isDirectory then .ok none
  else if !e.configFileExists then
    .error ("Plugin " ++ e.name ++ " is missing config.json file")
  else if !e.indexFileExists then
    .error ("Plugin " ++ e.name ++ " is missing index.ts file")
  else
    match e.configParse with
    | none => .error ("Plugin " ++ e.name ++ " config.json is not valid JSON")
    | some cfg =>
      if !cfg.hasEnabled then
        .error ("Plugin " ++ e.name ++ " config.json is missing the enabled property")
      else if cfg.enabledIsFalse then .ok none
      else if !cfg.hasConfigKey then
        .error ("Plugin " ++ e.name ++ " config.json is missing the config property")
      else if !e.defaultExportIsFunction then
        .error ("Plugin " ++ e.name ++ " index.ts does not export a default class")
      else .ok (some e.name)

/-- Discovery over the whole root listing: fail-fast, the first error aborts
and no plugin list is produced. -/
def discoverPlugins : List DirEntry → Except String (List String)
  | [] => .ok []
  | e :: rest =>
    match discoverStep e with
    | .error msg => .error msg
    | .ok contrib =>
      match discoverPlugins rest with
      | .error msg => .error msg
      | .ok names => .ok (contrib.toList ++ names)

/-- An entry the discovery scan actually inspects (not the reserved example
template, and a directory). -/
def entryRelevant (e : DirEntry) : Prop :=
  e.name ≠ "example" ∧ e.isDirectory = true

/-- The startup defects of the claim, with the config-key requirement gated
by the disabled-skip exactly as the source orders its checks. -/
def entryDefective (e : DirEntry) : Prop :=
  e.configFileExists = false ∨
  e.indexFileExists = false ∨
  e.configParse = none ∨
  (∃ cfg, e.configParse = some cfg ∧
    (cfg.hasEnabled = false ∨ (cfg.enabledIsFalse = false ∧ cfg.hasConfigKey = false)))

/-- A well-formed but disabled plugin directory: both files present, valid
JSON, enabled key present and its value exactly false. -/
def wellFormedDisabled (e : DirEntry) : Prop :=
  e.configFileExists = true ∧ e.indexFileExists = true ∧
  ∃ cfg, e.configParse = some cfg ∧ cfg.hasEnabled = true ∧ cfg.enabledIsFalse = true

/-! ## Polling coordinator iteration (startDeviceSynchronizedLoop,
pluginloop.ts lines 186-255)

One iteration of the while-true loop, as a function of the freshly polled
device status, the belief state (lastDeviceUpdateTime and
expectingDeviceRefreshOnNextCheck) and the current clock.  Timestamps are
millisecond epoch integers.  Note that the source initializes
lastDeviceUpdateTime on the first poll and never reassigns it afterwards;
the iteration returns it unchanged accordingly. -/

def oneMinuteMs : Int := 60 * 1000

def CHECK_OFFSET : Int := oneMinuteMs

def CHECK_INTERVAL : Int := 10 * oneMinuteMs

structure DeviceStatus where
  refresh_rate : Nat
  updated_at : Int
deriving Repr, DecidableEq

inductive LoopAction
  | deviceRefreshedExpected
  | deviceRefreshedUnexpected
  | refreshApproaching
  | idle
deriving Repr, DecidableEq

structure LoopResult where
  action : LoopAction
  sleepMs : Int
  expectingNext : Bool
  lastUpdateNext : Int
deriving Repr, DecidableEq

def refreshRateError (d : DeviceStatus) : String :=
  "Device refresh rate (" ++ toString d.refresh_rate ++ "s) is less than 60 seconds - not supported"

def loopIteration (d : DeviceStatus) (lastUpdate : Int) (expecting : Bool)
    (now : Int) : Except String LoopResult :=
  let lastUpdate := if lastUpdate = 0 then d.updated_at else lastUpdate
  if d.refresh_rate < 60 then
    .error (refreshRateError d)
  else
    let deviceRefreshRate : Int := (d.refresh_rate : Int) * 1000
    let deviceShouldUpdateAt := d.updated_at + deviceRefreshRate
    if d.updated_at ≠ lastUpdate then
      if expecting then
        .ok ⟨.deviceRefreshedExpected, CHECK_INTERVAL, false, lastUpdate⟩
      else
        .ok ⟨.deviceRefreshedUnexpected, CHECK_INTERVAL, expecting, lastUpdate⟩
    else if now + CHECK_OFFSET ≤ deviceShouldUpdateAt ∧
        deviceShouldUpdateAt ≤ now + CHECK_INTERVAL + CHECK_OFFSET then
      .ok ⟨.refreshApproaching, deviceShouldUpdateAt - now + oneMinuteMs, true, lastUpdate⟩
    else
      .ok ⟨.idle, CHECK_INTERVAL, expecting, lastUpdate⟩

/-! ## Sleep-until coordinator: post-refresh verification and recovery
(startDeviceSynchronizedLoop and waitForDeviceRefresh, src/src/env.ts
lines 193-305)

After triggering a render cycle one minute ahead of the predicted refresh
and sleeping through the margin, the loop re-polls the device: an unchanged
updated_at timestamp means the device missed its refresh and the loop
enters the slow-poll recovery procedure. -/

inductive PostRefreshOutcome
  | steady
  | recovery
deriving Repr, DecidableEq

def postRefreshStep (deviceUpdatedAt newUpdatedAt : Int) : PostRefreshOutcome :=
  if newUpdatedAt = deviceUpdatedAt then .recovery else .steady

/-- The polling core of waitForDeviceRefresh: the 60-second interval polls
the device and resolves at the first poll whose updated_at differs from the
timestamp captured on entry.  Given the finite sequence of observed poll
timestamps, returns the index and value of the first differing one, or none
when every poll repeats the entry timestamp (the promise stays pending). -/
def waitForDeviceRefresh (lastUpdate : Int) : List Int → Option (Nat × Int)
  | [] => none
  | t :: rest =>
    if t = lastUpdate then
      (waitForDeviceRefresh lastUpdate rest).map (fun p => (p.1 + 1, p.2))
    else some (0, t)

inductive CoordEvent
  | logDisconnected
  | logBackOnline
  | refreshAll
  | sleepUntilAfterRefresh
deriving Repr, DecidableEq

/-- The missed-refresh handler of the steady loop: log the disconnection,
run the slow-poll recovery procedure, and once it resolves log, re-render
every plugin and sleep until one minute after the promised refresh time.
Returns none while the recovery procedure has not observed a changed
timestamp, so the loop never resumes steady-state prediction before that. -/
def handleMissedRefresh (lastUpdate : Int) (recoveryPolls : List Int) :
    Option (List CoordEvent × Int) :=
  match waitForDeviceRefresh lastUpdate recoveryPolls with
  | none => none
  | some (_, t) =>
    some ([.logDisconnected, .logBackOnline, .refreshAll, .sleepUntilAfterRefresh], t + 60000)

/-! ## Refresh-rate restoration discipline of waitForDeviceRefresh
(src/src/env.ts lines 199-256)

The procedure captures the original refresh rate, installs a SIGINT handler
that restores it and exits, lowers the device rate to 60 seconds, polls
until a changed timestamp confirms a refresh, restores the original rate
and removes the handler.  We model the procedure as its sequence of atomic
segments; every awaited operation is an interruption opportunity of the
Node event loop, indexed in order.  A SIGINT delivered at an await runs the
installed handler (restore then exit) when one is installed, and terminates
the process with the Node default behavior otherwise. -/

inductive RecStep
  | pollDevice
  | registerHandler
  | alterRate
  | restoreRate
  | sleepStep
  | deregisterHandler
deriving Repr, DecidableEq

def RecStep.isAwait : RecStep → Bool
  | .pollDevice => true
  | .alterRate => true
  | .restoreRate => true
  | .sleepStep => true
  | _ => false

/-- One run shape of waitForDeviceRefresh: the original device rate, how
many interval polls observe an unchanged timestamp before the confirming
poll, whether the confirming poll landed closer than 20 seconds to the next
device refresh (taking the extra 25-second sleep and re-poll), and the
await index, if any, at which SIGINT is delivered. -/
structure RecoveryRun where
  origRate : Nat
  failedPolls : Nat
  near : Bool
  interruptAt : Option Nat
deriving Repr, DecidableEq

def recoverySteps (r : RecoveryRun) : List RecStep :=
  [.pollDevice, .registerHandler, .alterRate]
    ++ List.replicate r.failedPolls .pollDevice
    ++ [.pollDevice]
    ++ (if r.near then [.sleepStep, .pollDevice] else [])
    ++ [.restoreRate, .deregisterHandler]

inductive ExitKind
  | normal
  | sigintHandled
  | sigintDefault
deriving Repr, DecidableEq

structure RecState where
  rate : Nat
  restores : Nat
  handlerOn : Bool
  exitKind : ExitKind
deriving Repr, DecidableEq

def applyStep (orig : Nat) (st : RecState) : RecStep → RecState
  | .pollDevice => st
  | .sleepStep => st
  | .registerHandler => { st with handlerOn := true }
  | .deregisterHandler => { st with handlerOn := false }
  | .alterRate => { st with rate := 60 }
  | .restoreRate => { st with rate := orig, restores := st.restores + 1 }

/-- Effect of a delivered SIGINT: the installed handler restores the
original rate and exits; without a handler the process just dies. -/
def interruptNow (orig : Nat) (st : RecState) : RecState :=
  if st.handlerOn then
    { rate := orig, restores := st.restores + 1, handlerOn := st.handlerOn,
      exitKind := .sigintHandled }
  else { st with exitKind := .sigintDefault }

/-- Runs the step sequence, counting awaits from c; a SIGINT scheduled at
the current await index fires right after the awaited effect lands and ends
the run. -/
def runSteps (orig : Nat) (intAt : Option Nat) : List RecStep → Nat → RecState → RecState
  | [], _, st => st
  | s :: rest, c, st =>
    let st1 := applyStep orig st s
    if s.isAwait then
      if intAt = some c then interruptNow orig st1
      else runSteps orig intAt rest (c + 1) st1
    else runSteps orig intAt rest c st1

def runRecovery (r : RecoveryRun) : RecState :=
  runSteps r.origRate r.interruptAt (recoverySteps r) 0 ⟨r.origRate, 0, false, .normal⟩

/-- The await index of the success-path restoration call. -/
def restoreAwaitIdx (r : RecoveryRun) : Nat :=
  r.failedPolls + 3 + (if r.near then 2 else 0)

/-! ## Render contract fallback (renderToBase64 and drawError,
src/src/plugins/basePlugin.ts lines 82-130)

JavaScript thrown values are arbitrary; the model distinguishes Error
instances (with name and message) from other values, on which the property
access error.message yields undefined so that the subsequent call
undefined.split throws a TypeError.  The canvas is modelled as the list of
drawing operations applied to it; the external PNG encoder of the canvas
library is modelled as a byte serialization beginning with the PNG
signature and carrying the drawn text. -/

inductive JsValue
  | errorVal (name message : String)
  | strVal (s : String)
  | numVal (n : Int)
  | undefinedVal
deriving Repr, DecidableEq

def jsMessage : JsValue → Option String
  | .errorVal _ m => some m
  | _ => none

def jsErrName : JsValue → String
  | .errorVal n _ => n
  | _ => ""

inductive CanvasOp
  | opFillRect (style : String) (x y w h : ℚ)
  | opFillText (text : String) (x y : ℚ)
deriving Repr, DecidableEq

abbrev CanvasState := List CanvasOp

def typeErrorUndefinedSplit : JsValue :=
  .errorVal "TypeError" "Cannot read properties of undefined (reading split)"

def errorHeaderLine : String := "Error drawing plugin content"

/-- The lines drawError builds: the message split on newlines, with the
error name and a fixed header unshifted in front. -/
def drawErrorLines (v : JsValue) (msg : String) : List String :=
  errorHeaderLine :: jsErrName v :: msg.splitOn "\n"

/-- drawError: white background, then at most five of the error lines at
16-pixel vertical steps from the canvas center.  Accessing .message on a
thrown non-Error value yields undefined, and undefined.split throws. -/
def drawError (v : JsValue) (w h : ℚ) (c : CanvasState) : Except JsValue CanvasState :=
  match jsMessage v with
  | none => .error typeErrorUndefinedSplit
  | some msg =>
    let withBg := c ++ [.opFillRect "#ffffff" 0 0 w h]
    let lines := drawErrorLines v msg
    let numLines := min lines.length 5
    .ok (withBg ++ (lines.take numLines).enum.map
      (fun p => .opFillText p.2 (w / 2) (h / 2 + p.1 * 16)))

/-- A plugin as renderToBase64 sees it: fixed dimensions and a draw method
that either extends the canvas or throws some value, leaving the canvas in
the state painted so far. -/
structure PluginModel where
  width : Nat
  height : Nat
  draw : CanvasState → Except (CanvasState × JsValue) CanvasState

def pngSignature : List Nat := [137, 80, 78, 71, 13, 10, 26, 10]

/-- Model serialization of one canvas operation inside the PNG payload;
drawn text is carried byte by byte. -/
def opBytes : CanvasOp → List Nat
  | .opFillRect _ _ _ _ _ => [0]
  | .opFillText t _ _ => 1 :: t.data.map (fun ch => ch.toNat % 256)

def pngBytes (c : CanvasState) : List Nat :=
  pngSignature ++ (c.map opBytes).flatten

def b64alphabet : List Char :=
  ['A', 'B', 'C', 'D', 'E', 'F', 'G', 'H', 'I', 'J', 'K', 'L', 'M',
   'N', 'O', 'P', 'Q', 'R', 'S', 'T', 'U', 'V', 'W', 'X', 'Y', 'Z',
   'a', 'b', 'c', 'd', 'e', 'f', 'g', 'h', 'i', 'j', 'k', 'l', 'm',
   'n', 'o', 'p', 'q', 'r', 's', 't', 'u', 'v', 'w', 'x', 'y', 'z',
   '0', '1', '2', '3', '4', '5', '6', '7', '8', '9', '+', '/']

def b64c (n : Nat) : Char := b64alphabet.getD n 'A'

def b64val (ch : Char) : Nat := b64alphabet.indexOf ch

/-- Standard base64 of a byte list, with padding. -/
def b64encode : List Nat → List Char
  | [] => []
  | [a] => [b64c (a / 4), b64c (a % 4 * 16), '=', '=']
  | [a, b] => [b64c (a / 4), b64c (a % 4 * 16 + b / 16), b64c (b % 16 * 4), '=']
  | a :: b :: d :: rest =>
    b64c (a / 4) :: b64c (a % 4 * 16 + b / 16) :: b64c (b % 16 * 4 + d / 64) ::
      b64c (d % 64) :: b64encode rest

/-- Base64 decoding, the inverse of b64encode on encoded byte lists. -/
def b64decode : List Char → List Nat
  | c1 :: c2 :: c3 :: c4 :: rest =>
    if c3 = '=' then [b64val c1 * 4 + b64val c2 / 16]
    else if c4 = '=' then
      [b64val c1 * 4 + b64val c2 / 16, b64val c2 % 16 * 16 + b64val c3 / 4]
    else
      (b64val c1 * 4 + b64val c2 / 16) :: (b64val c2 % 16 * 16 + b64val c3 / 4) ::
        (b64val c3 % 4 * 64 + b64val c4) :: b64decode rest
  | _ => []

def dataUrlHeader : String := "data:image/png;base64,"

/-- Model of canvas.toDataURL of the external canvas library. -/
def toDataURL (c : CanvasState) : String :=
  ⟨dataUrlHeader.data ++ b64encode (pngBytes c)⟩

/-- Model of .replace applied to the data-URL header: removes the header
when the string starts with it. -/
def jsStripHeader (s : String) : String :=
  if dataUrlHeader.data.isPrefixOf s.data then ⟨s.data.drop dataUrlHeader.data.length⟩
  else s

/-- renderToBase64: white background, the draw of the plugin, and on an
uncaught throw the drawError hook; either canvas is serialized through
toDataURL and the data-URL header is stripped.  A failure of drawError
itself escapes. -/
def renderToBase64 (p : PluginModel) (c0 : CanvasState) : Except JsValue String :=
  let c1 := c0 ++ [CanvasOp.opFillRect "#ffffff" 0 0 (p.width : ℚ) (p.height : ℚ)]
  match p.draw c1 with
  | .ok c2 => .ok (jsStripHeader (toDataURL c2))
  | .error (cMid, v) =>
    match drawError v (p.width : ℚ) (p.height : ℚ) cMid with
    | .ok c3 => .ok (jsStripHeader (toDataURL c3))
    | .error e => .error e

/-- The text drawn on a canvas, in drawing order. -/
def renderedTextLines (c : CanvasState) : List String :=
  c.filterMap (fun op => match op with | .opFillText t _ _ => some t | _ => none)

/-- The canvas drawError leaves behind on the Error-instance path: white
background over the partially painted canvas, then the first at most five
error lines as text ops.  Coincides definitionally with the .ok payload of
drawError. -/
def drawErrorCanvas (v : JsValue) (msg : String) (w h : ℚ) (c : CanvasState) : CanvasState :=
  (c ++ [.opFillRect "#ffffff" 0 0 w h]) ++
    ((drawErrorLines v msg).take (min (drawErrorLines v msg).length 5)).enum.map
      (fun q => .opFillText q.2 (w / 2) (h / 2 + q.1 * 16))

/-- A plugin whose draw throws an Error instance. -/
def failingDrawPlugin : PluginModel :=
  { width := 10, height := 20,
    draw := fun c => .error (c, .errorVal "Error" "boom") }

/-- A plugin whose draw throws a plain string, as JavaScript allows. -/
def stringThrowingPlugin : PluginModel :=
  { width := 10, height := 20,
    draw := fun c => .error (c, .strVal "oops") }

/-- Concrete plugin cycle used as a witness input: the middle plugin fails. -/
def samplePluginRuns : List PluginRun :=
  [⟨"clock", .ok ()⟩, ⟨"calendar", .error "network down"⟩, ⟨"weather", .ok ()⟩]

/-- Concrete directory entry used as a counterexample input: well-formed,
disabled, and missing the config key. -/
def disabledNoConfigKeyEntry : DirEntry :=
  ⟨"disabledPlugin", true, true, some ⟨true, true, false⟩, true, true⟩

/-! ## Supporting lemmas -/

theorem jsStartsWith_append (pre t : String) : jsStartsWith (pre ++ t) pre = true := by
  unfold jsStartsWith
  rw [String.data_append]
  exact List.isPrefixOf_iff_prefix.mpr (List.prefix_append _ _)

theorem jsStartsWith_append2 (pre t u : String) : jsStartsWith (pre ++ t ++ u) pre = true := by
  unfold jsStartsWith
  rw [String.data_append, String.data_append, List.append_assoc]
  exact List.isPrefixOf_iff_prefix.mpr (List.prefix_append _ _)

theorem deleteMatching_eq_filter (l : List Screen) (store : Store) :
    deleteMatching store l = store.filter (fun sc => l.all (fun d => sc.id != d.id)) := by
  induction l generalizing store with
  | nil => simp [deleteMatching]
  | cons d rest ih =>
    show deleteMatching (removeScreen store d.id) rest = _
    rw [ih]
    unfold removeScreen
    rw [List.filter_filter]
    apply List.filter_congr
    intro x _
    simp [Bool.and_comm]

theorem countMatching_deleteMatching_self (store : Store) (pre : String) :
    countMatching (deleteMatching store (matchingScreens store pre)) pre = 0 := by
  unfold countMatching matchingScreens
  rw [deleteMatching_eq_filter, List.filter_filter, List.length_eq_zero,
    List.filter_eq_nil_iff]
  intro sc hs hand
  rw [Bool.and_eq_true] at hand
  obtain ⟨hstart, hall⟩ := hand
  have hmem : sc ∈ matchingScreens store pre := List.mem_filter.mpr ⟨hs, hstart⟩
  have := List.all_eq_true.mp hall sc hmem
  simp at this

theorem matchingScreens_append (s t : Store) (pre : String) :
    matchingScreens (s ++ t) pre = matchingScreens s pre ++ matchingScreens t pre :=
  List.filter_append _ _

theorem countMatching_refresh (store : Store) (pn fid sfx : String) (newId : Nat) :
    countMatching (refreshScreenForPlugin store pn fid sfx newId) (stableName pn fid) = 1 := by
  have h0 := countMatching_deleteMatching_self store (stableName pn fid)
  unfold countMatching at h0 ⊢
  rw [List.length_eq_zero] at h0
  show (matchingScreens
    (addScreen (deleteMatching store (matchingScreens store (stableName pn fid)))
      newId (stableName pn fid ++ "_" ++ sfx)) (stableName pn fid)).length = 1
  unfold addScreen
  rw [matchingScreens_append, h0]
  simp only [matchingScreens, List.filter_cons, List.filter_nil, jsStartsWith_append2]
  simp

theorem deleteTraceStores_sublist : ∀ (snapshot : List Screen) (store : Store),
    ∀ st ∈ deleteTraceStores store snapshot, st.Sublist store := by
  intro snapshot
  induction snapshot with
  | nil =>
    intro store st hst
    simp [deleteTraceStores] at hst
    subst hst
    exact List.Sublist.refl _
  | cons d rest ih =>
    intro store st hst
    simp only [deleteTraceStores, List.mem_cons] at hst
    rcases hst with h | h
    · subst h; exact List.Sublist.refl _
    · exact (ih _ st h).trans (List.filter_sublist store)

theorem countMatching_mono {s1 s2 : Store} (pre : String) (h : s1.Sublist s2) :
    countMatching s1 pre ≤ countMatching s2 pre :=
  (List.Sublist.filter _ h).length_le

/-! ## Claim theorems -/

/-- C9: the plugin canvas is instantiated from device geometry with width
and height swapped exactly when the model rotation is an odd multiple of 90
degrees, as computed by fixDims in identifyDevice. -/
theorem rotation_swap_iff (r : Int) (w h : Nat) :
    ((∃ k : Int, r = (2 * k + 1) * 90) → fixDims r w h = (h, w)) ∧
    ((¬ ∃ k : Int, r = (2 * k + 1) * 90) → fixDims r w h = (w, h)) := by
  have hiff : isRotated r = true ↔ ∃ k : Int, r = (2 * k + 1) * 90 := by
    unfold isRotated
    rw [beq_iff_eq, ← Int.dvd_iff_emod_eq_zero]
    constructor
    · rintro ⟨m, hm⟩
      exact ⟨m - 1, by omega⟩
    · rintro ⟨k, hk⟩
      exact ⟨k + 1, by omega⟩
  constructor
  · intro hodd
    unfold fixDims
    rw [if_pos (hiff.mpr hodd)]
  · intro hnot
    unfold fixDims
    rw [if_neg]
    intro hc
    exact hnot (hiff.mp hc)

/-- C9 witness: a 90-degree rotation swaps an 800 by 480 panel. -/
theorem rotation_swap_iff_witness : fixDims 90 800 480 = (480, 800) :=
  (rotation_swap_iff 90 800 480).1 ⟨0, by decide⟩

/-- C5: publishing twice in succession for the same plugin and device
leaves exactly one live screen whose name starts with the stable stem,
because refreshScreenForPlugin deletes every stem-matching screen before
creating the new one. -/
theorem publish_idempotent (store : Store) (pn fid sfx1 sfx2 : String) (id1 id2 : Nat) :
    countMatching
      (refreshScreenForPlugin (refreshScreenForPlugin store pn fid sfx1 id1) pn fid sfx2 id2)
      (stableName pn fid) = 1 :=
  countMatching_refresh _ pn fid sfx2 id2

/-- C10: within one publish operation deletion strictly precedes creation:
if addScreen fails after the deletions the store holds zero stem-matching
screens (the previous image is not retained), and starting from a store
with at most one stem-matching screen, no intermediate store of the
operation ever holds two. -/
theorem delete_precedes_create (store : Store) (pn fid sfx : String) (newId : Nat)
    (hinv : countMatching store (stableName pn fid) ≤ 1) :
    countMatching (publishStoreIfAddFails store pn fid) (stableName pn fid) = 0 ∧
    ∀ st ∈ publishTrace store pn fid sfx newId, countMatching st (stableName pn fid) ≤ 1 := by
  constructor
  · exact countMatching_deleteMatching_self store _
  · intro st hst
    unfold publishTrace at hst
    rw [List.mem_append] at hst
    rcases hst with h | h
    · exact le_trans (countMatching_mono _ (deleteTraceStores_sublist _ _ _ h)) hinv
    · simp at h
      subst h
      rw [countMatching_refresh]

/-- C10 witness at a concrete store holding one matching and one unrelated
screen. -/
theorem delete_precedes_create_witness :
    countMatching (publishStoreIfAddFails [⟨1, "foo_AB_x"⟩, ⟨2, "bar_AB_x"⟩] "foo" "AB")
      (stableName "foo" "AB") = 0 ∧
    ∀ st ∈ publishTrace [⟨1, "foo_AB_x"⟩, ⟨2, "bar_AB_x"⟩] "foo" "AB" "t1" 7,
      countMatching st (stableName "foo" "AB") ≤ 1 :=
  delete_precedes_create [⟨1, "foo_AB_x"⟩, ⟨2, "bar_AB_x"⟩] "foo" "AB" "t1" 7 (by decide)

/-- C8: within one refresh cycle every plugin is attempted regardless of
other plugins failing, and each failure is caught and logged with the
plugin name rather than escaping the loop. -/
theorem refreshAll_isolates_failures (ps : List PluginRun) :
    (refreshAllPlugins ps).1 = ps.map PluginRun.pluginName ∧
    ∀ p ∈ ps, ∀ e, p.outcome = .error e → (p.pluginName, e) ∈ (refreshAllPlugins ps).2 := by
  induction ps with
  | nil =>
    refine ⟨rfl, ?_⟩
    intro p hp
    simp at hp
  | cons p rest ih =>
    constructor
    · cases hout : p.outcome <;> simp [refreshAllPlugins, hout, ih.1]
    · intro q hq e he
      rcases List.mem_cons.mp hq with rfl | hmem
      · simp [refreshAllPlugins, he]
      · have hrec := ih.2 q hmem e he
        cases hout : p.outcome <;>
          simp [refreshAllPlugins, hout, hrec]

/-- C8 witness: the failing middle plugin does not prevent the others from
being attempted, and its failure is logged. -/
theorem refreshAll_isolates_failures_witness :
    (refreshAllPlugins samplePluginRuns).1 = ["clock", "calendar", "weather"] ∧
    ("calendar", "network down") ∈ (refreshAllPlugins samplePluginRuns).2 :=
  ⟨(refreshAll_isolates_failures samplePluginRuns).1.trans (by rfl),
   (refreshAll_isolates_failures samplePluginRuns).2 ⟨"calendar", .error "network down"⟩
     (List.Mem.tail _ (List.Mem.head _)) "network down" rfl⟩

/-- C6: a polled refresh rate below the 60-second floor makes the
coordinator iteration raise the validation error instead of proceeding to
the prediction arithmetic. -/
theorem refreshRate_floor_rejected (d : DeviceStatus) (lastUpdate : Int)
    (expecting : Bool) (now : Int) (h : d.refresh_rate < 60) :
    loopIteration d lastUpdate expecting now = .error (refreshRateError d) := by
  unfold loopIteration
  simp [h]

/-- C6 witness at a 30-second refresh rate. -/
theorem refreshRate_floor_rejected_witness :
    loopIteration ⟨30, 0⟩ 0 false 0 = .error (refreshRateError ⟨30, 0⟩) :=
  refreshRate_floor_rejected ⟨30, 0⟩ 0 false 0 (by decide)

/-- C2 (amended): whenever the polling coordinator iteration triggers the
render cycle, the predicted refresh instant lies at least CHECK_OFFSET (one
minute) and at most CHECK_INTERVAL + CHECK_OFFSET (eleven minutes) in the
future. -/
theorem triggerWindow_bounds (d : DeviceStatus) (lastUpdate : Int) (expecting : Bool)
    (now : Int) (res : LoopResult)
    (hok : loopIteration d lastUpdate expecting now = .ok res)
    (htrig : res.action = .refreshApproaching) :
    CHECK_OFFSET ≤ d.updated_at + (d.refresh_rate : Int) * 1000 - now ∧
    d.updated_at + (d.refresh_rate : Int) * 1000 - now ≤ CHECK_INTERVAL + CHECK_OFFSET := by
  unfold loopIteration at hok
  simp only [] at hok
  generalize (if lastUpdate = 0 then d.updated_at else lastUpdate) = L at hok
  by_cases h60 : d.refresh_rate < 60
  · rw [if_pos h60] at hok
    exact absurd hok (by simp)
  · rw [if_neg h60] at hok
    by_cases hne : d.updated_at ≠ L
    · rw [if_pos hne] at hok
      by_cases hexp : expecting = true
      · rw [if_pos hexp] at hok
        rw [Except.ok.injEq] at hok
        subst hok
        simp at htrig
      · rw [if_neg hexp] at hok
        rw [Except.ok.injEq] at hok
        subst hok
        simp at htrig
    · rw [if_neg hne] at hok
      by_cases hwin : now + CHECK_OFFSET ≤ d.updated_at + (d.refresh_rate : Int) * 1000 ∧
          d.updated_at + (d.refresh_rate : Int) * 1000 ≤ now + CHECK_INTERVAL + CHECK_OFFSET
      · obtain ⟨h1, h2⟩ := hwin
        simp only [CHECK_OFFSET, CHECK_INTERVAL, oneMinuteMs] at h1 h2 ⊢
        omega
      · rw [if_neg hwin] at hok
        rw [Except.ok.injEq] at hok
        subst hok
        simp at htrig

/-- C2 witness: a poll two minutes ahead of the predicted instant triggers
within the window. -/
theorem triggerWindow_bounds_witness :
    CHECK_OFFSET ≤ (0 : Int) + ((120 : Nat) : Int) * 1000 - 0 ∧
    (0 : Int) + ((120 : Nat) : Int) * 1000 - 0 ≤ CHECK_INTERVAL + CHECK_OFFSET :=
  triggerWindow_bounds ⟨120, 0⟩ 0 false 0 ⟨.refreshApproaching, 180000, true, 0⟩
    rfl rfl

/-- C2 counterexample: a poll eleven minutes ahead of the predicted instant
still triggers the render cycle, violating the claimed bound of two
margin-lengths (two minutes). -/
theorem triggerWindow_two_margins_violated :
    loopIteration ⟨660, 0⟩ 0 false 0 =
      .ok ⟨.refreshApproaching, 720000, true, 0⟩ ∧
    ¬((0 : Int) + ((660 : Nat) : Int) * 1000 - 0 ≤ 2 * oneMinuteMs) :=
  ⟨rfl, by decide⟩

/-- C7 helper: any relevant directory entry with one of the startup defects
makes discoverStep raise. -/
theorem discoverStep_error_of_defective (e : DirEntry) (hrel : entryRelevant e)
    (hdef : entryDefective e) : ∃ msg, discoverStep e = .error msg := by
  obtain ⟨hname, hdir⟩ := hrel
  rcases e with ⟨nm, dir, cfgex, parse, idxex, expfn⟩
  simp only at hname hdir
  subst hdir
  unfold entryDefective at hdef
  simp only at hdef
  cases cfgex with
  | false =>
    exact ⟨"Plugin " ++ nm ++ " is missing config.json file",
      by simp [discoverStep, hname]⟩
  | true =>
    cases idxex with
    | false =>
      exact ⟨"Plugin " ++ nm ++ " is missing index.ts file",
        by simp [discoverStep, hname]⟩
    | true =>
      cases parse with
      | none =>
        exact ⟨"Plugin " ++ nm ++ " config.json is not valid JSON",
          by simp [discoverStep, hname]⟩
      | some cfg =>
        simp at hdef
        rcases hdef with hen | ⟨hfalse, hkey⟩
        · exact ⟨"Plugin " ++ nm ++ " config.json is missing the enabled property",
            by simp [discoverStep, hname, hen]⟩
        · cases hen : cfg.hasEnabled with
          | false =>
            exact ⟨"Plugin " ++ nm ++ " config.json is missing the enabled property",
              by simp [discoverStep, hname, hen]⟩
          | true =>
            exact ⟨"Plugin " ++ nm ++ " config.json is missing the config property",
              by simp [discoverStep, hname, hen, hfalse, hkey]⟩

/-- C7 helper: an error of any member entry makes the whole discovery scan
fail (the scan aborts at the first defective entry). -/
theorem discoverPlugins_error_of_mem : ∀ (entries : List DirEntry) (e : DirEntry),
    e ∈ entries → (∃ msg, discoverStep e = .error msg) →
    ∃ msg, discoverPlugins entries = .error msg := by
  intro entries
  induction entries with
  | nil =>
    intro e he
    simp at he
  | cons a rest ih =>
    rintro e he ⟨msg, hmsg⟩
    rcases List.mem_cons.mp he with rfl | hmem
    · exact ⟨msg, by simp [discoverPlugins, hmsg]⟩
    · cases ha : discoverStep a with
      | error m => exact ⟨m, by simp [discoverPlugins, ha]⟩
      | ok contrib =>
        obtain ⟨m2, hm2⟩ := ih e hmem ⟨msg, hmsg⟩
        exact ⟨m2, by simp [discoverPlugins, ha, hm2]⟩

/-- C7 helper: a well-formed but disabled plugin directory is skipped
without error. -/
theorem discoverStep_disabled (e : DirEntry) (hrel : entryRelevant e)
    (hdis : wellFormedDisabled e) : discoverStep e = .ok none := by
  obtain ⟨hname, hdir⟩ := hrel
  obtain ⟨hcfg, hidx, cfg, hparse, hen, hfalse⟩ := hdis
  simp [discoverStep, hname, hdir, hcfg, hidx, hparse, hen, hfalse]

/-- C7 (amended): for every relevant plugin directory, a missing
configuration file, missing entry point, unparseable JSON, missing enabled
key, or (for a directory not disabled) missing config key aborts discovery
with a fatal error and no plugin list is produced, while a well-formed
directory whose enabled value is exactly false is skipped without error. -/
theorem discovery_fail_fast (entries : List DirEntry) (e : DirEntry) (he : e ∈ entries) :
    (entryRelevant e → entryDefective e → ∃ msg, discoverPlugins entries = .error msg) ∧
    (entryRelevant e → wellFormedDisabled e → discoverStep e = .ok none) :=
  ⟨fun h1 h2 => discoverPlugins_error_of_mem entries e he (discoverStep_error_of_defective e h1 h2),
   fun h1 h2 => discoverStep_disabled e h1 h2⟩

/-- C7 witness: a directory missing config.json aborts discovery. -/
theorem discovery_fail_fast_witness :
    ∃ msg, discoverPlugins [⟨"broken", true, false, none, false, false⟩] = .error msg :=
  (discovery_fail_fast [⟨"broken", true, false, none, false, false⟩] _
      (List.Mem.head _)).1 ⟨by decide, rfl⟩ (Or.inl rfl)

/-- C7 counterexample: a relevant directory whose config.json parses to a
document with enabled exactly false and no config key is skipped without
any error, so a missing config key does not always raise a fatal startup
error as the claim states. -/
theorem disabled_missing_config_no_error :
    entryRelevant disabledNoConfigKeyEntry ∧
    (∃ cfg, disabledNoConfigKeyEntry.configParse = some cfg ∧ cfg.hasConfigKey = false) ∧
    discoverPlugins [disabledNoConfigKeyEntry] = .ok [] :=
  ⟨⟨by decide, rfl⟩, ⟨⟨true, true, false⟩, rfl, rfl⟩, rfl⟩

/-- C3 helper: the recovery procedure stays pending while every poll
repeats the entry timestamp. -/
theorem waitForDeviceRefresh_none (u : Int) (polls : List Int)
    (h : ∀ t ∈ polls, t = u) : waitForDeviceRefresh u polls = none := by
  induction polls with
  | nil => rfl
  | cons t rest ih =>
    have ht := h t (List.mem_cons_self t rest)
    simp [waitForDeviceRefresh, ht,
      ih (fun x hx => h x (List.mem_cons_of_mem _ hx))]

/-- C3 helper: when the recovery procedure resolves, the resolving poll is
one of the observed polls and differs from the entry timestamp. -/
theorem waitForDeviceRefresh_some (u : Int) : ∀ (polls : List Int) (i : Nat) (t : Int),
    waitForDeviceRefresh u polls = some (i, t) → t ∈ polls ∧ t ≠ u := by
  intro polls
  induction polls with
  | nil =>
    intro i t h
    simp [waitForDeviceRefresh] at h
  | cons a rest ih =>
    intro i t h
    by_cases ha : a = u
    · rw [waitForDeviceRefresh, if_pos ha] at h
      cases hw : waitForDeviceRefresh u rest with
      | none => rw [hw] at h; simp at h
      | some p =>
        rw [hw] at h
        simp at h
        obtain ⟨_, htv⟩ := h
        have hres := ih p.1 p.2 (by rw [hw])
        rw [← htv]
        exact ⟨List.mem_cons_of_mem _ hres.1, hres.2⟩
    · rw [waitForDeviceRefresh, if_neg ha] at h
      simp at h
      obtain ⟨_, hta⟩ := h
      rw [← hta]
      exact ⟨List.mem_cons_self a rest, ha⟩

/-- C3: an unchanged timestamp across the predicted refresh makes the
coordinator enter the recovery handler; the handler logs, re-renders all
plugins and restarts the slow-poll recovery procedure, and the loop does
not resume steady-state prediction until some recovery poll carries a
changed timestamp. -/
theorem disconnection_recovery_gate (u newPoll : Int) (polls : List Int) :
    (postRefreshStep u newPoll = .recovery ↔ newPoll = u) ∧
    ((∀ t ∈ polls, t = u) → handleMissedRefresh u polls = none) ∧
    (∀ evs next, handleMissedRefresh u polls = some (evs, next) →
      (∃ t ∈ polls, t ≠ u) ∧ CoordEvent.refreshAll ∈ evs) := by
  refine ⟨?_, ?_, ?_⟩
  · unfold postRefreshStep
    split_ifs with h <;> simp [h]
  · intro hall
    unfold handleMissedRefresh
    rw [waitForDeviceRefresh_none u polls hall]
  · intro evs next h
    unfold handleMissedRefresh at h
    cases hw : waitForDeviceRefresh u polls with
    | none => rw [hw] at h; simp at h
    | some p =>
      obtain ⟨i, t⟩ := p
      rw [hw] at h
      simp at h
      obtain ⟨hevs, _⟩ := h
      obtain ⟨htm, htne⟩ := waitForDeviceRefresh_some u polls i t hw
      subst hevs
      exact ⟨⟨t, htm, htne⟩, by simp⟩

/-- C3 witness: concrete poll sequences with an unchanged and a changed
timestamp. -/
theorem disconnection_recovery_gate_witness :
    postRefreshStep 0 0 = PostRefreshOutcome.recovery ∧
    handleMissedRefresh 0 [0, 0] = none ∧
    (∃ t ∈ ([0, 0, 5] : List Int), t ≠ 0) :=
  ⟨(disconnection_recovery_gate 0 0 [0]).1.mpr rfl,
   (disconnection_recovery_gate 0 0 [0, 0]).2.1 (by decide),
   ((disconnection_recovery_gate 0 0 [0, 0, 5]).2.2
     [CoordEvent.logDisconnected, CoordEvent.logBackOnline, CoordEvent.refreshAll,
       CoordEvent.sleepUntilAfterRefresh] 60005 (by decide)).1⟩

/-! ## C4: restoration discipline of the recovery procedure -/

theorem runSteps_replicate_none (orig : Nat) : ∀ (n : Nat) (rest : List RecStep)
    (c : Nat) (st : RecState),
    runSteps orig none (List.replicate n .pollDevice ++ rest) c st =
      runSteps orig none rest (c + n) st := by
  intro n
  induction n with
  | zero =>
    intro rest c st
    simp
  | succ m ih =>
    intro rest c st
    rw [List.replicate_succ, List.cons_append, runSteps]
    simp only [RecStep.isAwait, applyStep, if_true, reduceCtorEq, if_false]
    rw [ih]
    congr 1
    omega

theorem runSteps_replicate_some (orig : Nat) : ∀ (n k : Nat) (rest : List RecStep)
    (c : Nat) (st : RecState),
    runSteps orig (some k) (List.replicate n .pollDevice ++ rest) c st =
      if c ≤ k ∧ k < c + n then interruptNow orig st
      else runSteps orig (some k) rest (c + n) st := by
  intro n
  induction n with
  | zero =>
    intro k rest c st
    rw [if_neg (by omega)]
    simp
  | succ m ih =>
    intro k rest c st
    rw [List.replicate_succ, List.cons_append, runSteps]
    simp only [RecStep.isAwait, applyStep, if_true]
    by_cases hk : k = c
    · subst hk
      rw [if_pos rfl, if_pos (by omega)]
    · rw [if_neg (by simp [Option.some.injEq]; omega), ih]
      by_cases hin : c + 1 ≤ k ∧ k < c + 1 + m
      · rw [if_pos hin, if_pos (by omega)]
      · rw [if_neg hin, if_neg (by omega)]
        congr 1
        omega

theorem runSteps_cons_await (orig : Nat) (intAt : Option Nat) (s : RecStep)
    (h : s.isAwait = true) (rest : List RecStep) (c : Nat) (st : RecState) :
    runSteps orig intAt (s :: rest) c st =
      if intAt = some c then interruptNow orig (applyStep orig st s)
      else runSteps orig intAt rest (c + 1) (applyStep orig st s) := by
  rw [runSteps, h]
  simp

theorem runSteps_cons_sync (orig : Nat) (intAt : Option Nat) (s : RecStep)
    (h : s.isAwait = false) (rest : List RecStep) (c : Nat) (st : RecState) :
    runSteps orig intAt (s :: rest) c st =
      runSteps orig intAt rest c (applyStep orig st s) := by
  rw [runSteps, h]
  simp

theorem runRecovery_eq_none (orig n : Nat) (near : Bool) :
    runRecovery ⟨orig, n, near, none⟩ = ⟨orig, 1, false, .normal⟩ := by
  unfold runRecovery recoverySteps
  cases near
  all_goals
    simp only [Bool.false_eq_true, if_true, if_false, ite_true, ite_false,
      List.append_assoc, List.cons_append, List.nil_append]
  · rw [runSteps_cons_await _ _ RecStep.pollDevice rfl, if_neg (by simp),
      runSteps_cons_sync _ _ RecStep.registerHandler rfl,
      runSteps_cons_await _ _ RecStep.alterRate rfl, if_neg (by simp),
      runSteps_replicate_none,
      runSteps_cons_await _ _ RecStep.pollDevice rfl, if_neg (by simp),
      runSteps_cons_await _ _ RecStep.restoreRate rfl, if_neg (by simp),
      runSteps_cons_sync _ _ RecStep.deregisterHandler rfl, runSteps]
    simp [applyStep]
  · rw [runSteps_cons_await _ _ RecStep.pollDevice rfl, if_neg (by simp),
      runSteps_cons_sync _ _ RecStep.registerHandler rfl,
      runSteps_cons_await _ _ RecStep.alterRate rfl, if_neg (by simp),
      runSteps_replicate_none,
      runSteps_cons_await _ _ RecStep.pollDevice rfl, if_neg (by simp),
      runSteps_cons_await _ _ RecStep.sleepStep rfl, if_neg (by simp),
      runSteps_cons_await _ _ RecStep.pollDevice rfl, if_neg (by simp),
      runSteps_cons_await _ _ RecStep.restoreRate rfl, if_neg (by simp),
      runSteps_cons_sync _ _ RecStep.deregisterHandler rfl, runSteps]
    simp [applyStep]

theorem runRecovery_eq_some (orig n : Nat) (near : Bool) (k : Nat) :
    runRecovery ⟨orig, n, near, some k⟩ =
      if k = 0 then ⟨orig, 0, false, .sigintDefault⟩
      else if k < restoreAwaitIdx ⟨orig, n, near, some k⟩ then ⟨orig, 1, true, .sigintHandled⟩
      else if k = restoreAwaitIdx ⟨orig, n, near, some k⟩ then ⟨orig, 2, true, .sigintHandled⟩
      else ⟨orig, 1, false, .normal⟩ := by
  unfold runRecovery recoverySteps restoreAwaitIdx
  cases near
  all_goals
    simp only [Bool.false_eq_true, if_true, if_false, ite_true, ite_false,
      List.append_assoc, List.cons_append, List.nil_append, Nat.add_zero]
  -- near = false
  · rw [runSteps_cons_await _ _ RecStep.pollDevice rfl]
    by_cases h0 : k = 0
    · subst h0
      rw [if_pos rfl, if_pos rfl]
      simp [applyStep, interruptNow]
    · rw [if_neg (by simp; omega), if_neg h0,
        runSteps_cons_sync _ _ RecStep.registerHandler rfl,
        runSteps_cons_await _ _ RecStep.alterRate rfl]
      by_cases h1 : k = 1
      · subst h1
        rw [if_pos rfl, if_pos (by omega)]
        simp [applyStep, interruptNow]
      · rw [if_neg (by simp; omega), runSteps_replicate_some]
        by_cases hin : 0 + 1 + 1 ≤ k ∧ k < 0 + 1 + 1 + n
        · rw [if_pos hin, if_pos (by omega)]
          simp [applyStep, interruptNow]
        · rw [if_neg hin,
            runSteps_cons_await _ _ RecStep.pollDevice rfl]
          by_cases h2n : k = 0 + 1 + 1 + n
          · subst h2n
            rw [if_pos rfl, if_pos (by omega)]
            simp [applyStep, interruptNow]
          · rw [if_neg (by simp; omega),
              runSteps_cons_await _ _ RecStep.restoreRate rfl]
            by_cases h3n : k = 0 + 1 + 1 + n + 1
            · subst h3n
              rw [if_pos rfl, if_neg (by omega), if_pos (by omega)]
              simp [applyStep, interruptNow]
            · rw [if_neg (by simp; omega),
                runSteps_cons_sync _ _ RecStep.deregisterHandler rfl, runSteps,
                if_neg (by omega), if_neg (by omega)]
              simp [applyStep]
  -- near = true
  · rw [runSteps_cons_await _ _ RecStep.pollDevice rfl]
    by_cases h0 : k = 0
    · subst h0
      rw [if_pos rfl, if_pos rfl]
      simp [applyStep, interruptNow]
    · rw [if_neg (by simp; omega), if_neg h0,
        runSteps_cons_sync _ _ RecStep.registerHandler rfl,
        runSteps_cons_await _ _ RecStep.alterRate rfl]
      by_cases h1 : k = 1
      · subst h1
        rw [if_pos rfl, if_pos (by omega)]
        simp [applyStep, interruptNow]
      · rw [if_neg (by simp; omega), runSteps_replicate_some]
        by_cases hin : 0 + 1 + 1 ≤ k ∧ k < 0 + 1 + 1 + n
        · rw [if_pos hin, if_pos (by omega)]
          simp [applyStep, interruptNow]
        · rw [if_neg hin,
            runSteps_cons_await _ _ RecStep.pollDevice rfl]
          by_cases h2n : k = 0 + 1 + 1 + n
          · subst h2n
            rw [if_pos rfl, if_pos (by omega)]
            simp [applyStep, interruptNow]
          · rw [if_neg (by simp; omega),
              runSteps_cons_await _ _ RecStep.sleepStep rfl]
            by_cases h3n : k = 0 + 1 + 1 + n + 1
            · subst h3n
              rw [if_pos rfl, if_pos (by omega)]
              simp [applyStep, interruptNow]
            · rw [if_neg (by simp; omega),
                runSteps_cons_await _ _ RecStep.pollDevice rfl]
              by_cases h4n : k = 0 + 1 + 1 + n + 1 + 1
              · subst h4n
                rw [if_pos rfl, if_pos (by omega)]
                simp [applyStep, interruptNow]
              · rw [if_neg (by simp; omega),
                  runSteps_cons_await _ _ RecStep.restoreRate rfl]
                by_cases h5n : k = 0 + 1 + 1 + n + 1 + 1 + 1
                · subst h5n
                  rw [if_pos rfl, if_neg (by omega), if_pos (by omega)]
                  simp [applyStep, interruptNow]
                · rw [if_neg (by simp; omega),
                    runSteps_cons_sync _ _ RecStep.deregisterHandler rfl, runSteps,
                    if_neg (by omega), if_neg (by omega)]
                  simp [applyStep]

/-- C4 (amended): on every exit path out of the slow-poll recovery
procedure (normal completion, or SIGINT at any await) the device ends at
its original refresh rate and is never left at the temporary 60-second
rate; the restoration is performed at least once whenever the rate was
altered, and at most twice, the second time only when the SIGINT lands on
the success-path restoration await while the handler is still installed. -/
theorem refreshRate_restoration (r : RecoveryRun) :
    (runRecovery r).rate = r.origRate ∧
    (runRecovery r).restores ≤ 2 ∧
    (r.interruptAt ≠ some 0 → 1 ≤ (runRecovery r).restores) ∧
    ((runRecovery r).restores = 2 → r.interruptAt = some (restoreAwaitIdx r)) := by
  rcases r with ⟨orig, n, near, intAt⟩
  rcases intAt with _ | k
  · rw [runRecovery_eq_none]
    simp
  · rw [runRecovery_eq_some]
    by_cases h0 : k = 0
    · subst h0
      rw [if_pos rfl]
      simp
    · rw [if_neg h0]
      by_cases h1 : k < restoreAwaitIdx ⟨orig, n, near, some k⟩
      · rw [if_pos h1]
        simp [h0]
      · rw [if_neg h1]
        by_cases h2 : k = restoreAwaitIdx ⟨orig, n, near, some k⟩
        · rw [if_pos h2]
          refine ⟨rfl, by simp, fun _ => by simp, fun _ => ?_⟩
          exact congrArg some h2
        · rw [if_neg h2]
          simp [h0]

/-- C4 witness: an uninterrupted recovery run restores the original rate
exactly once. -/
theorem refreshRate_restoration_witness :
    (runRecovery ⟨300, 1, false, none⟩).rate = 300 ∧
    1 ≤ (runRecovery ⟨300, 1, false, none⟩).restores :=
  ⟨(refreshRate_restoration ⟨300, 1, false, none⟩).1,
   (refreshRate_restoration ⟨300, 1, false, none⟩).2.2.1 (by simp)⟩

/-- C4 counterexample: a SIGINT delivered while the success-path
restoration call is in flight, before the handler is removed, performs the
restoration twice, so the rate is not restored exactly once on every exit
path. -/
theorem refreshRate_restored_twice :
    (runRecovery ⟨300, 0, false, some 3⟩).restores = 2 := rfl

/-! ## C1: render fallback -/

theorem b64val_b64c : ∀ n < 64, b64val (b64c n) = n := by decide

theorem b64c_ne_pad : ∀ n < 64, b64c n ≠ '=' := by decide

theorem b64_roundtrip : ∀ (l : List Nat), (∀ x ∈ l, x < 256) →
    b64decode (b64encode l) = l
  | [], _ => rfl
  | [a], h => by
    have ha : a < 256 := h a (by simp)
    rw [b64encode, b64decode]
    rw [if_pos rfl]
    rw [b64val_b64c _ (by omega), b64val_b64c _ (by omega)]
    simp
    omega
  | [a, b], h => by
    have ha : a < 256 := h a (by simp)
    have hb : b < 256 := h b (by simp)
    rw [b64encode, b64decode]
    rw [if_neg (b64c_ne_pad _ (by omega)), if_pos rfl]
    rw [b64val_b64c _ (by omega), b64val_b64c _ (by omega), b64val_b64c _ (by omega)]
    simp
    constructor <;> omega
  | a :: b :: d :: rest, h => by
    have ha : a < 256 := h a (by simp)
    have hb : b < 256 := h b (by simp)
    have hd : d < 256 := h d (by simp)
    rw [b64encode, b64decode]
    rw [if_neg (b64c_ne_pad _ (by omega)), if_neg (b64c_ne_pad _ (by omega))]
    rw [b64val_b64c _ (by omega), b64val_b64c _ (by omega), b64val_b64c _ (by omega),
      b64val_b64c _ (by omega)]
    rw [b64_roundtrip rest (fun x hx => h x (by simp [hx]))]
    simp
    refine ⟨by omega, by omega, by omega⟩

theorem pngBytes_lt256 (c : CanvasState) : ∀ x ∈ pngBytes c, x < 256 := by
  intro x hx
  unfold pngBytes at hx
  rw [List.mem_append] at hx
  rcases hx with h | h
  · unfold pngSignature at h
    simp at h
    omega
  · rw [List.mem_flatten] at h
    obtain ⟨l, hl, hx⟩ := h
    rw [List.mem_map] at hl
    obtain ⟨op, _, rfl⟩ := hl
    cases op with
    | opFillRect _ _ _ _ _ =>
      simp [opBytes] at hx
      omega
    | opFillText t _ _ =>
      simp [opBytes] at hx
      rcases hx with rfl | ⟨ch, _, rfl⟩
      · omega
      · exact Nat.mod_lt _ (by norm_num)

theorem jsStripHeader_toDataURL (c : CanvasState) :
    jsStripHeader (toDataURL c) = ⟨b64encode (pngBytes c)⟩ := by
  unfold jsStripHeader toDataURL
  rw [if_pos (List.isPrefixOf_iff_prefix.mpr (List.prefix_append _ _))]
  exact congrArg String.mk (List.drop_left _ _)

theorem renderedTextLines_append (c1 c2 : CanvasState) :
    renderedTextLines (c1 ++ c2) = renderedTextLines c1 ++ renderedTextLines c2 :=
  List.filterMap_append _ _ _

theorem renderedTextLines_enumText (ls : List String) (w h : ℚ) :
    renderedTextLines (ls.enum.map
      (fun q => CanvasOp.opFillText q.2 (w / 2) (h / 2 + q.1 * 16))) = ls := by
  unfold renderedTextLines
  rw [List.filterMap_map]
  rw [show ((fun op => match op with
        | CanvasOp.opFillText t _ _ => some t
        | _ => none) ∘
      (fun q : Nat × String => CanvasOp.opFillText q.2 (w / 2) (h / 2 + q.1 * 16))) =
      some ∘ (fun q : Nat × String => q.2) from rfl]
  rw [List.filterMap_eq_map, List.enum_map_snd]

/-- C1 (amended): when the draw of a plugin throws an Error instance, the
renderToBase64 fallback always succeeds: it returns the base64 PNG
serialization of the drawError canvas, which decodes back to bytes
beginning with the PNG signature, and whose drawn text is the first at most
five lines of the header, error name and newline-split message. -/
theorem renderToBase64_error_fallback (p : PluginModel) (c0 cMid : CanvasState)
    (nm msg : String)
    (hdraw : p.draw (c0 ++ [CanvasOp.opFillRect "#ffffff" 0 0 (p.width : ℚ) (p.height : ℚ)]) =
      .error (cMid, .errorVal nm msg)) :
    ∃ c3 : CanvasState,
      drawError (.errorVal nm msg) (p.width : ℚ) (p.height : ℚ) cMid = .ok c3 ∧
      renderToBase64 p c0 = .ok ⟨b64encode (pngBytes c3)⟩ ∧
      b64decode (b64encode (pngBytes c3)) = pngBytes c3 ∧
      (pngBytes c3).take 8 = pngSignature ∧
      renderedTextLines c3 = renderedTextLines cMid ++
        (drawErrorLines (.errorVal nm msg) msg).take
          (min (drawErrorLines (.errorVal nm msg) msg).length 5) ∧
      (renderedTextLines c3).length ≤ (renderedTextLines cMid).length + 5 := by
  have hde : drawError (.errorVal nm msg) (p.width : ℚ) (p.height : ℚ) cMid =
      .ok (drawErrorCanvas (.errorVal nm msg) msg (p.width : ℚ) (p.height : ℚ) cMid) := rfl
  refine ⟨drawErrorCanvas (.errorVal nm msg) msg (p.width : ℚ) (p.height : ℚ) cMid,
    hde, ?_, ?_, ?_, ?_, ?_⟩
  · simp only [renderToBase64, hdraw, hde, jsStripHeader_toDataURL]
  · exact b64_roundtrip _ (pngBytes_lt256 _)
  · unfold pngBytes
    exact List.take_left pngSignature _
  · unfold drawErrorCanvas
    rw [renderedTextLines_append, renderedTextLines_append, renderedTextLines_enumText,
      show renderedTextLines
        [CanvasOp.opFillRect "#ffffff" 0 0 (p.width : ℚ) (p.height : ℚ)] = [] from rfl,
      List.append_nil]
  · unfold drawErrorCanvas
    rw [renderedTextLines_append, renderedTextLines_append, renderedTextLines_enumText,
      show renderedTextLines
        [CanvasOp.opFillRect "#ffffff" 0 0 (p.width : ℚ) (p.height : ℚ)] = [] from rfl,
      List.append_nil]
    simp only [List.length_append, List.length_take]
    omega

/-- C1 witness: the fallback succeeds for a concrete plugin throwing an
Error instance. -/
theorem renderToBase64_error_fallback_witness :
    ∃ s, renderToBase64 failingDrawPlugin [] = .ok s := by
  obtain ⟨c3, _, h2, _⟩ := renderToBase64_error_fallback failingDrawPlugin []
    ([] ++ [CanvasOp.opFillRect "#ffffff" 0 0 (failingDrawPlugin.width : ℚ)
      (failingDrawPlugin.height : ℚ)]) "Error" "boom" rfl
  exact ⟨_, h2⟩

/-- C1 counterexample: a plugin that throws a plain string makes the
fallback path itself throw a TypeError (error.message is undefined and
undefined.split raises), so renderToBase64 does not return image bytes for
every thrown value. -/
theorem renderToBase64_nonError_throw :
    renderToBase64 stringThrowingPlugin [] = .error typeErrorUndefinedSplit := rfl

end Spec2Proof
